import Mathlib

/-!
Verification development for azure-resourcegraph-exporter.

The repository source under scrutiny is `src/main.go` (process bootstrap:
argument parsing, metric-cache construction, configuration load with
validation, Azure connection setup, HTTP server start).  The query-to-metric
mapping-and-caching core (the probe orchestrator `handleProbeRequest`, the
result-to-metric mapper, and the `getOrCompute` cache discipline) is invoked
from `main.go` but its body is not part of the provided sources; those parts
are modelled here from the specification, and each such definition carries a
doc comment starting with `Modelled from the spec:`.

Time is modelled as natural-number seconds (or nanoseconds — the proofs only
use the ordering), metric values as integers, and fallible operations as
`Except`.
-/

namespace ResourceGraphExporter

/-! ## Data model: metric samples -/

/-- A typed cell value of a result row: string, number, boolean or null
(spec §3, ResultRow). Numbers are modelled as integers. -/
inductive CellValue where
  | str (s : String)
  | num (n : Int)
  | boolean (b : Bool)
  | null
deriving DecidableEq, Repr

/-- A result row: an ordered mapping from column name to typed value
(spec §3, ResultRow). -/
def ResultRow := List (String × CellValue)

instance : DecidableEq ResultRow := by
  unfold ResultRow
  infer_instance

/-- Column lookup inside one row (first occurrence wins, preserving the
ordered-mapping reading of spec §3). -/
def lookupCol (row : ResultRow) (col : String) : Option CellValue :=
  match row with
  | [] => none
  | (c, v) :: rest => if c = col then some v else lookupCol rest col

/-- One exposed metric sample: `(metricName, labelSet, value)` (spec §3,
MetricSample). The label set keeps the template's label order. -/
structure MetricSample where
  metricName : String
  labelSet : List (String × String)
  value : Int
deriving DecidableEq, Repr

/-! ## Result-to-metric mapper (spec §4.2), modelled from the spec

The mapper used by `handleProbeRequest` lives outside the provided sources;
it is modelled from spec §4.2. -/

/-- A reference inside a metric template: a literal string or a row-column
reference (spec §3, metricTemplate). -/
inductive TemplateRef where
  | literal (s : String)
  | column (c : String)
deriving DecidableEq, Repr

/-- Modelled from the spec: the metric template of a query definition
(spec §3): a base metric name (literal or derived from a row column),
label-name to row-column-or-literal mappings, and a value-column reference
with an optional default value. -/
structure MetricTemplate where
  nameRef : TemplateRef
  labels : List (String × TemplateRef)
  valueColumn : String
  defaultValue : Option Int
deriving DecidableEq, Repr

/-- Row-level mapping failures (spec §7): `TemplateResolutionError` and
`ValueCoercionError`; the row is skipped, the batch continues. -/
inductive RowError where
  | templateResolution
  | valueCoercion
deriving DecidableEq, Repr

/-- String coercion of a cell (spec §4.2): numbers formatted canonically,
booleans as "true"/"false", null becomes the empty string. -/
def coerceString : CellValue → String
  | CellValue.str s => s
  | CellValue.num n => toString n
  | CellValue.boolean b => if b then "true" else "false"
  | CellValue.null => ""

/-- Modelled from the spec: resolve a template reference against a row
(spec §4.2); a literal resolves to itself, a column reference to the
row's cell coerced to string, and a missing referenced column is a
`TemplateResolutionError` for this row. -/
def resolveRef (row : ResultRow) (r : TemplateRef) : Except RowError String :=
  match r with
  | TemplateRef.literal s => Except.ok s
  | TemplateRef.column c =>
      match lookupCol row c with
      | some v => Except.ok (coerceString v)
      | none => Except.error RowError.templateResolution

/-- Resolve every label of the template against a row, keeping label order. -/
def resolveLabels (row : ResultRow) :
    List (String × TemplateRef) → Except RowError (List (String × String))
  | [] => Except.ok []
  | (n, r) :: rest =>
      match resolveRef row r with
      | Except.error e => Except.error e
      | Except.ok s =>
          match resolveLabels row rest with
          | Except.error e => Except.error e
          | Except.ok tail => Except.ok ((n, s) :: tail)

/-- Modelled from the spec: resolve the value column of a row (spec §4.2):
a numeric cell yields its number; a missing/absent-typed cell uses the
declared default when there is one, and is a `ValueCoercionError`
otherwise. -/
def resolveValue (row : ResultRow) (t : MetricTemplate) : Except RowError Int :=
  match lookupCol row t.valueColumn with
  | some (CellValue.num n) => Except.ok n
  | _ =>
      match t.defaultValue with
      | some d => Except.ok d
      | none => Except.error RowError.valueCoercion

/-- Modelled from the spec: map one row under a template into one metric
sample, or fail with a row-level error (spec §4.2). -/
def mapRow (t : MetricTemplate) (row : ResultRow) : Except RowError MetricSample :=
  match resolveRef row t.nameRef with
  | Except.error e => Except.error e
  | Except.ok name =>
      match resolveLabels row t.labels with
      | Except.error e => Except.error e
      | Except.ok ls =>
          match resolveValue row t with
          | Except.error e => Except.error e
          | Except.ok v => Except.ok ⟨name, ls, v⟩

/-- Whether a row is skipped by the mapper. -/
def rowFails (t : MetricTemplate) (row : ResultRow) : Bool :=
  match mapRow t row with
  | Except.ok _ => false
  | Except.error _ => true

/-- Modelled from the spec: the row-fault-tolerant mapping stage
(spec §4.2): rows are mapped in input order, failed rows are skipped and
counted, successful samples are collected in order. Returns the sample
sequence and the skipped-row error count. -/
def mapRows (t : MetricTemplate) : List ResultRow → List MetricSample × Nat
  | [] => ([], 0)
  | row :: rest =>
      match mapRow t row with
      | Except.ok s => (s :: (mapRows t rest).1, (mapRows t rest).2)
      | Except.error _ => ((mapRows t rest).1, (mapRows t rest).2 + 1)

/-- The series identity of a sample: `(metricName, labelSet)` (spec §4.2). -/
def sampleId (s : MetricSample) : String × List (String × String) :=
  (s.metricName, s.labelSet)

/-- Batch-level mapper failure (spec §7): `DuplicateSeriesError`. -/
inductive MapError where
  | duplicateSeries
deriving DecidableEq, Repr

/-- Modelled from the spec: `map(rows, metricTemplate)` (spec §4.2): maps
the rows, then rejects the whole batch with a `DuplicateSeriesError` when
two samples share an identical `(metricName, labelSet)` identity. -/
def map (t : MetricTemplate) (rows : List ResultRow) :
    Except MapError (List MetricSample × Nat) :=
  let out := mapRows t rows
  if (out.1.map sampleId).Nodup then Except.ok out
  else Except.error MapError.duplicateSeries

/-- The compute function the probe orchestrator hands to the cache for one
query: the mapped samples, or an error string on batch rejection. -/
def computeFromMap (t : MetricTemplate) (rows : List ResultRow) :
    Except String (List MetricSample) :=
  match map t rows with
  | Except.ok out => Except.ok out.1
  | Except.error MapError.duplicateSeries => Except.error "DuplicateSeriesError"

/-! ## Metric cache (spec §4.3), modelled from the spec

`main.go` line 60 constructs the cache; the `getOrCompute` discipline that
the probe code layers on top of it is not part of the provided sources. -/

/-- A cache entry: the stored value, its creation timestamp and its
time-to-live (spec §3, CacheEntry: creation timestamp plus expiry
timestamp `createdAt + ttl`). -/
structure CacheEntry (α : Type) where
  value : α
  createdAt : Nat
  ttl : Nat
deriving DecidableEq, Repr

/-- The metric cache: an association list from string keys
(`(queryName, scopeFingerprint)` rendered as a string) to entries. -/
def Cache (α : Type) := List (String × CacheEntry α)

/-- Cache lookup by key. -/
def cacheLookup {α : Type} (c : Cache α) (k : String) : Option (CacheEntry α) :=
  match c with
  | [] => none
  | (k', e) :: rest => if k' = k then some e else cacheLookup rest k

/-- Store an entry under a key, replacing any previous entry for that key
(replace-whole-value semantics, spec §3). -/
def cacheSet {α : Type} (c : Cache α) (k : String) (e : CacheEntry α) : Cache α :=
  match c with
  | [] => [(k, e)]
  | (k', e') :: rest =>
      if k' = k then (k, e) :: rest else (k', e') :: cacheSet rest k e

/-- Result of one `getOrCompute` call: the value or error surfaced to the
caller, the cache state afterwards, and whether the compute function was
invoked. -/
structure GocOutcome (α : Type) where
  result : Except String α
  cache : Cache α
  computed : Bool

/-- Modelled from the spec: `getOrCompute(key, ttl, computeFn)` of the
Metric Cache (spec §4.3), whose implementation is not under the provided
sources. An entry younger than its ttl is served without recomputation; an
entry at/past its ttl (or a missing entry) triggers recomputation; on
compute success the entry is replaced whole; on compute failure the stale
entry is not evicted and the failure is surfaced to the caller. The compute
function is modelled by the `Except` result it would produce if invoked. -/
def getOrCompute {α : Type} (c : Cache α) (k : String) (ttl : Nat) (now : Nat)
    (computeFn : Except String α) : GocOutcome α :=
  match cacheLookup c k with
  | some e =>
      if now < e.createdAt + e.ttl then
        ⟨Except.ok e.value, c, false⟩
      else
        match computeFn with
        | Except.ok v => ⟨Except.ok v, cacheSet c k ⟨v, now, ttl⟩, true⟩
        | Except.error err => ⟨Except.error err, c, true⟩
  | none =>
      match computeFn with
      | Except.ok v => ⟨Except.ok v, cacheSet c k ⟨v, now, ttl⟩, true⟩
      | Except.error err => ⟨Except.error err, c, true⟩

/-! ## Single-flight protocol (spec §4.3 / §5), modelled from the spec

The single-flight discipline of `getOrCompute` is concurrent; it is modelled
as an interleaved transition system over K callers that all arrive at the
same expired cache key. The single compute invocation is modelled as
producing a fixed result `res` (a value or an error, via the result type
`ρ`). -/

/-- The phase of one caller inside the single-flight protocol for a key:
not yet arrived at the decision point, executing the compute function,
waiting on another caller's in-flight computation, or finished with an
observed result. -/
inductive CallerPhase (ρ : Type) where
  | start
  | computing
  | waiting
  | done (r : ρ)
deriving DecidableEq, Repr

/-- Global protocol state for one expired key: each caller's phase, whether
a computation is in flight, the published (stored) result if any, and how
many times the compute function has been invoked. -/
structure SFState (ρ : Type) (K : Nat) where
  phase : Fin K → CallerPhase ρ
  inFlight : Bool
  published : Option ρ
  computeCount : Nat

/-- Initial state: every caller at the decision point for the expired key,
nothing in flight, nothing published, zero compute invocations. -/
def sfInit (ρ : Type) (K : Nat) : SFState ρ K :=
  ⟨fun _ => CallerPhase.start, false, none, 0⟩

/-- Modelled from the spec: one interleaving step of the single-flight
protocol (spec §4.3, §5). A caller that finds no computation in flight and
no published value becomes the leader and invokes the compute function; a
caller that finds a computation in flight waits (a suspending wait, not a
busy poll); the leader publishes its result; a waiter (or a caller arriving
after publication) adopts the published result. -/
inductive SFStep (ρ : Type) (K : Nat) (res : ρ) : SFState ρ K → SFState ρ K → Prop where
  | lead (s : SFState ρ K) (i : Fin K)
      (hp : s.phase i = CallerPhase.start)
      (hf : s.inFlight = false) (hpub : s.published = none) :
      SFStep ρ K res s
        ⟨Function.update s.phase i CallerPhase.computing, true, none, s.computeCount + 1⟩
  | finish (s : SFState ρ K) (i : Fin K)
      (hp : s.phase i = CallerPhase.computing) :
      SFStep ρ K res s
        ⟨Function.update s.phase i (CallerPhase.done res), false, some res, s.computeCount⟩
  | join (s : SFState ρ K) (i : Fin K)
      (hp : s.phase i = CallerPhase.start) (hf : s.inFlight = true) :
      SFStep ρ K res s
        ⟨Function.update s.phase i CallerPhase.waiting, s.inFlight, s.published, s.computeCount⟩
  | hit (s : SFState ρ K) (i : Fin K) (r : ρ)
      (hp : s.phase i = CallerPhase.start) (hpub : s.published = some r) :
      SFStep ρ K res s
        ⟨Function.update s.phase i (CallerPhase.done r), s.inFlight, s.published, s.computeCount⟩
  | awake (s : SFState ρ K) (i : Fin K) (r : ρ)
      (hp : s.phase i = CallerPhase.waiting) (hpub : s.published = some r) :
      SFStep ρ K res s
        ⟨Function.update s.phase i (CallerPhase.done r), s.inFlight, s.published, s.computeCount⟩

/-- States reachable from the initial state by interleaving steps. -/
inductive SFReachable (ρ : Type) (K : Nat) (res : ρ) : SFState ρ K → Prop where
  | init : SFReachable ρ K res (sfInit ρ K)
  | step (s s' : SFState ρ K) (h : SFReachable ρ K res s)
      (hs : SFStep ρ K res s s') : SFReachable ρ K res s'

/-- The inductive invariant of the single-flight protocol. -/
structure SFInv (ρ : Type) (K : Nat) (res : ρ) (s : SFState ρ K) : Prop where
  pub_res : ∀ r, s.published = some r → r = res
  inflight_pub : s.inFlight = true → s.published = none
  no_compute : s.inFlight = false → ∀ i, s.phase i ≠ CallerPhase.computing
  unique_compute : ∀ i j, s.phase i = CallerPhase.computing →
    s.phase j = CallerPhase.computing → i = j
  count_eq : s.computeCount =
    (if s.inFlight then 1 else 0) + (if s.published.isSome then 1 else 0)
  done_pub : ∀ i r, s.phase i = CallerPhase.done r →
    s.published = some res ∧ r = res

/-! ## Probe orchestrator (spec §4.4 / §7), modelled from the spec

`handleProbeRequest` is routed at main.go line 210 but its body is not part
of the provided sources; it is modelled from spec §4.4 and §7. -/

/-- The response of one probe request: a client error (unknown query name
or subscription id in the restriction), a service-level failure (every
selected query failed), or a success payload with per-query status. -/
inductive ProbeResponse where
  | clientError
  | serviceFailure (perQueryStatus : List (String × Option String))
  | success (payload : List MetricSample) (perQueryStatus : List (String × Option String))
deriving DecidableEq

/-- Whether the probe restriction is valid: every requested query name is
declared and every requested subscription id is known (spec §4.4,
Selection; spec §7, ClientScopeError). -/
def validSelection (declared knownSubs selQ selS : List String) : Bool :=
  selQ.all (fun q => declared.contains q) && selS.all (fun s => knownSubs.contains s)

/-- The effective query selection: an unrestricted request runs all
declared queries (spec §4.4). -/
def effectiveSelection (declared selQ : List String) : List String :=
  if selQ = [] then declared else selQ

/-- Whether one selected query failed, per the per-query outcome oracle. -/
def queryFails (runQuery : String → Except String (List MetricSample))
    (q : String) : Bool :=
  match runQuery q with
  | Except.ok _ => false
  | Except.error _ => true

/-- The per-query status record of a probe (spec §4.4): `none` for a
succeeded query, the error for a failed one. -/
def perQueryStatus (runQuery : String → Except String (List MetricSample))
    (sel : List String) : List (String × Option String) :=
  sel.map (fun q =>
    (q, match runQuery q with
        | Except.ok _ => none
        | Except.error e => some e))

/-- The exposition payload of a probe: the concatenated samples of the
succeeded queries, in selection order; failed queries' samples are
omitted (spec §4.4). -/
def probePayload (runQuery : String → Except String (List MetricSample))
    (sel : List String) : List MetricSample :=
  (sel.filterMap (fun q => (runQuery q).toOption)).flatten

/-- Modelled from the spec: the probe orchestrator
(`handleProbeRequest`, spec §4.4/§7). An invalid restriction is a client
error and no queries execute; otherwise each selected query's cached or
recomputed outcome is taken from the oracle `runQuery`; the response is a
service-level failure only when every selected query failed, and a success
payload (with failures omitted and recorded in the per-query status)
otherwise. -/
def probe (declared knownSubs selQ selS : List String)
    (runQuery : String → Except String (List MetricSample)) : ProbeResponse :=
  if validSelection declared knownSubs selQ selS then
    if (effectiveSelection declared selQ).all (queryFails runQuery) then
      ProbeResponse.serviceFailure (perQueryStatus runQuery (effectiveSelection declared selQ))
    else
      ProbeResponse.success (probePayload runQuery (effectiveSelection declared selQ))
        (perQueryStatus runQuery (effectiveSelection declared selQ))
  else ProbeResponse.clientError

/-! ## Configuration validation, Azure connection and main ordering

`readConfig` (main.go lines 120-126), `initAzureConnection` (lines
129-169) and the sequencing of `main` (lines 53-70) are in the provided
sources; the body of `kusto.Config.Validate` is not and is modelled from
the spec. `log.Panic` terminates the process and is modelled as
`Except.error`. -/

/-- A query definition record (spec §3, QueryDefinition); `declaredColumns`
is the set of column names the template can be validated against. -/
structure QueryDefinition where
  name : String
  queryText : String
  template : MetricTemplate
  declaredColumns : List String
deriving DecidableEq

/-- The column names a metric template references. -/
def templateRefColumns (t : MetricTemplate) : List String :=
  (match t.nameRef with
   | TemplateRef.column c => [c]
   | TemplateRef.literal _ => []) ++
  t.labels.filterMap (fun l =>
    match l.2 with
    | TemplateRef.column c => some c
    | TemplateRef.literal _ => none) ++
  [t.valueColumn]

/-- Modelled from the spec: `Config.Validate` (called by `readConfig`,
main.go line 123; the kusto configuration implementation is outside the
provided sources). A configuration is malformed when two query definitions
share a name, or a template references a name that is not resolvable
(spec §7, ConfigError). -/
def validateConfig (qs : List QueryDefinition) : Except String Unit :=
  if (qs.map (fun q => q.name)).Nodup then
    if qs.all (fun q => (templateRefColumns q.template).all
        (fun c => q.declaredColumns.contains c)) then
      Except.ok ()
    else Except.error "ConfigError: template references no resolvable name"
  else Except.error "ConfigError: duplicate query name"

/-- An Azure subscription as returned by the subscriptions client; only its
identity matters here. -/
structure Subscription where
  subscriptionID : String
deriving DecidableEq, Repr

/-- The external outcomes `initAzureConnection` depends on: authorizer
setup, environment lookup, `subscriptionsClient.List` and
`subscriptionsClient.Get` per subscription id. -/
structure AzureEnv where
  authorizerOk : Except String Unit
  environmentOk : Except String Unit
  listResult : Except String (List Subscription)
  getResult : String → Except String Subscription

/-- Embeds the fixed-subscription loop of `initAzureConnection` (main.go
lines 160-167): each configured subscription id is resolved with `Get`
and appended; any failure panics (short-circuits). -/
def getSubscriptions (env : AzureEnv) (acc : List Subscription) :
    List String → Except String (List Subscription)
  | [] => Except.ok acc
  | subId :: rest =>
      match env.getResult subId with
      | Except.error e => Except.error e
      | Except.ok r => getSubscriptions env (acc ++ [r]) rest

/-- Embeds `initAzureConnection` (main.go lines 129-169): sets up the
authorizer and environment (panicking on failure), then either
auto-discovers subscriptions (panicking on a lookup failure or an empty
result, lines 147-157) or resolves the explicitly configured list
(lines 158-168). Returns the final `AzureSubscriptions` value. -/
def initAzureConnection (optsSubscription : List String) (env : AzureEnv) :
    Except String (List Subscription) :=
  match env.authorizerOk with
  | Except.error e => Except.error e
  | Except.ok _ =>
      match env.environmentOk with
      | Except.error e => Except.error e
      | Except.ok _ =>
          if optsSubscription.length = 0 then
            match env.listResult with
            | Except.error e => Except.error e
            | Except.ok subs =>
                if subs.length = 0 then
                  Except.error "no Azure Subscriptions found via auto detection, does this ServicePrincipal have read permissions to the subscriptions?"
                else Except.ok subs
          else getSubscriptions env [] optsSubscription

/-- Process-lifecycle events of `main` (main.go lines 53-70) the claims
refer to, in execution order. -/
inductive ProcEvent where
  | argsParsed
  | globalMetricsInit
  | cacheInit (defaultExpirationSeconds cleanupIntervalSeconds : Nat)
  | configRead
  | azureInit
  | httpServe
deriving DecidableEq, Repr

/-- Everything `main` runs against: the loaded query definitions and the
Azure-side outcomes. -/
structure ProcEnv where
  queries : List QueryDefinition
  optsSubscription : List String
  azure : AzureEnv

/-- Final fate of the process. -/
inductive MainOutcome where
  | panicked (msg : String)
  | serving (subs : List Subscription)
deriving DecidableEq

/-- Embeds `main` (main.go lines 53-70): argument parsing, global metrics,
then `metricCache = cache.New(120*time.Second, 60*time.Second)` (line 60),
then `readConfig` (line 63, panics when `Config.Validate` fails), then
`initAzureConnection` (line 66, panics on failure), then the HTTP server
(line 69). Returns the ordered event trace and the outcome. -/
def mainTrace (env : ProcEnv) : List ProcEvent × MainOutcome :=
  match validateConfig env.queries with
  | Except.error e =>
      ([ProcEvent.argsParsed, ProcEvent.globalMetricsInit,
        ProcEvent.cacheInit 120 60, ProcEvent.configRead],
       MainOutcome.panicked e)
  | Except.ok _ =>
      match initAzureConnection env.optsSubscription env.azure with
      | Except.error e =>
          ([ProcEvent.argsParsed, ProcEvent.globalMetricsInit,
            ProcEvent.cacheInit 120 60, ProcEvent.configRead,
            ProcEvent.azureInit],
           MainOutcome.panicked e)
      | Except.ok subs =>
          ([ProcEvent.argsParsed, ProcEvent.globalMetricsInit,
            ProcEvent.cacheInit 120 60, ProcEvent.configRead,
            ProcEvent.azureInit, ProcEvent.httpServe],
           MainOutcome.serving subs)

end ResourceGraphExporter

namespace ResourceGraphExporter

/-! ## Mapper lemmas -/

theorem mapRows_length (t : MetricTemplate) (rows : List ResultRow) :
    (mapRows t rows).1.length + (mapRows t rows).2 = rows.length := by
  induction rows with
  | nil => rfl
  | cons row rest ih =>
      simp only [mapRows]
      cases h : mapRow t row with
      | ok s => simp only [List.length_cons]; omega
      | error e => simp only [List.length_cons]; omega

theorem mapRows_fst (t : MetricTemplate) (rows : List ResultRow) :
    (mapRows t rows).1 = rows.filterMap (fun r => (mapRow t r).toOption) := by
  induction rows with
  | nil => rfl
  | cons row rest ih =>
      simp only [mapRows, List.filterMap_cons]
      cases h : mapRow t row with
      | ok s => simp [Except.toOption, ih]
      | error e => simp [Except.toOption, ih]

theorem mapRows_snd (t : MetricTemplate) (rows : List ResultRow) :
    (mapRows t rows).2 = rows.countP (rowFails t) := by
  induction rows with
  | nil => rfl
  | cons row rest ih =>
      simp only [mapRows, List.countP_cons]
      cases h : mapRow t row with
      | ok s => simp [rowFails, h, ih]
      | error e => simp [rowFails, h, ih]

theorem rowFails_of_missingValue (t : MetricTemplate) (row : ResultRow)
    (hdef : t.defaultValue = none)
    (hmiss : lookupCol row t.valueColumn = none) :
    rowFails t row = true := by
  have hval : resolveValue row t = Except.error RowError.valueCoercion := by
    simp [resolveValue, hmiss, hdef]
  unfold rowFails mapRow
  cases hn : resolveRef row t.nameRef with
  | error e => rfl
  | ok name =>
      cases hlbl : resolveLabels row t.labels with
      | error e => rfl
      | ok ls => simp [hval]

/-- On a failing compute function the cache state is unchanged. -/
theorem getOrCompute_error_cache {α : Type} (c : Cache α) (k : String)
    (ttl now : Nat) (err : String) :
    (getOrCompute c k ttl now (Except.error err)).cache = c := by
  unfold getOrCompute
  cases cacheLookup c k with
  | none => rfl
  | some e =>
      by_cases hfresh : now < e.createdAt + e.ttl <;> simp [hfresh]

/-! ## Theorems: mapper -/

/-- C7: for every fixed sequence of rows and fixed template, `map` is a pure
function — two invocations on the same inputs produce identical sample
sequences — and the output sample order preserves the input row order: the
sample sequence is exactly the in-order filter-map of the rows. -/
theorem map_deterministic_order_preserving (t : MetricTemplate)
    (rows : List ResultRow) :
    map t rows = map t rows ∧
    (mapRows t rows).1 = rows.filterMap (fun r => (mapRow t r).toOption) :=
  ⟨rfl, mapRows_fst t rows⟩

/-- C6: for N input rows of which exactly one has a missing value column,
with no default value declared, the mapper returns exactly N−1 samples and
reports exactly one skipped-row error. -/
theorem row_fault_isolation (t : MetricTemplate) (rows : List ResultRow)
    (hdef : t.defaultValue = none)
    (hone : rows.countP (fun r => (lookupCol r t.valueColumn).isNone) = 1)
    (hok : ∀ r ∈ rows, (lookupCol r t.valueColumn).isSome → rowFails t r = false) :
    (mapRows t rows).1.length = rows.length - 1 ∧ (mapRows t rows).2 = 1 := by
  have hcong : ∀ r ∈ rows,
      rowFails t r = true ↔ (lookupCol r t.valueColumn).isNone = true := by
    intro r hr
    cases hc : lookupCol r t.valueColumn with
    | none => simp [rowFails_of_missingValue t r hdef hc]
    | some v =>
        have := hok r hr (by simp [hc])
        simp [this]
  have herr : (mapRows t rows).2 = 1 := by
    rw [mapRows_snd, List.countP_congr hcong, hone]
  refine ⟨?_, herr⟩
  have hlen := mapRows_length t rows
  omega

/-- C5: if two rows produce samples with an identical `(metricName,
labelSet)` identity, the mapper yields a `DuplicateSeriesError` for that
query, the whole batch is rejected rather than merged, and the previous
cache value (if any) is retained. -/
theorem duplicate_detection (t : MetricTemplate) (rows : List ResultRow)
    (i j : Nat) (si sj : MetricSample) (c : Cache (List MetricSample))
    (k : String) (ttl now : Nat) (e : CacheEntry (List MetricSample))
    (hij : i ≠ j)
    (hi : (mapRows t rows).1[i]? = some si)
    (hj : (mapRows t rows).1[j]? = some sj)
    (hid : sampleId si = sampleId sj)
    (hl : cacheLookup c k = some e) :
    map t rows = Except.error MapError.duplicateSeries ∧
    (getOrCompute c k ttl now (computeFromMap t rows)).cache = c ∧
    cacheLookup (getOrCompute c k ttl now (computeFromMap t rows)).cache k = some e := by
  have hi' : ((mapRows t rows).1.map sampleId)[i]? = some (sampleId si) := by
    simp [List.getElem?_map, hi]
  have hj' : ((mapRows t rows).1.map sampleId)[j]? = some (sampleId sj) := by
    simp [List.getElem?_map, hj]
  have hnodup : ¬ ((mapRows t rows).1.map sampleId).Nodup := by
    intro hnd
    have hlen : i < ((mapRows t rows).1.map sampleId).length := by
      have := List.getElem?_eq_some.mp hi'
      exact this.1
    exact hij (List.getElem?_inj hlen hnd (by rw [hi', hj', hid]))
  have hmap : map t rows = Except.error MapError.duplicateSeries := by
    simp [map, hnodup]
  have hcompute : computeFromMap t rows = Except.error "DuplicateSeriesError" := by
    simp [computeFromMap, hmap]
  rw [hcompute]
  refine ⟨hmap, getOrCompute_error_cache c k ttl now _, ?_⟩
  rw [getOrCompute_error_cache c k ttl now _]
  exact hl

theorem row_fault_isolation_witness :
    ((⟨TemplateRef.literal "m", [], "v", none⟩ : MetricTemplate).defaultValue = none) ∧
    (([[("v", CellValue.num 5)], []] : List ResultRow).countP
      (fun r => (lookupCol r "v").isNone) = 1) ∧
    (∀ r ∈ ([[("v", CellValue.num 5)], []] : List ResultRow),
      (lookupCol r "v").isSome →
        rowFails ⟨TemplateRef.literal "m", [], "v", none⟩ r = false) ∧
    ((mapRows ⟨TemplateRef.literal "m", [], "v", none⟩
        [[("v", CellValue.num 5)], []]).1.length =
      ([[("v", CellValue.num 5)], []] : List ResultRow).length - 1 ∧
     (mapRows ⟨TemplateRef.literal "m", [], "v", none⟩
        [[("v", CellValue.num 5)], []]).2 = 1) :=
  ⟨by decide, by decide, by decide,
   row_fault_isolation ⟨TemplateRef.literal "m", [], "v", none⟩
     [[("v", CellValue.num 5)], []] (by decide) (by decide) (by decide)⟩

theorem duplicate_detection_witness :
    ((0 : Nat) ≠ 1) ∧
    ((mapRows ⟨TemplateRef.literal "m", [], "v", none⟩
        [[("v", CellValue.num 1)], [("v", CellValue.num 1)]]).1[0]? =
      some ⟨"m", [], 1⟩) ∧
    ((mapRows ⟨TemplateRef.literal "m", [], "v", none⟩
        [[("v", CellValue.num 1)], [("v", CellValue.num 1)]]).1[1]? =
      some ⟨"m", [], 1⟩) ∧
    (cacheLookup [("k", (⟨[], 0, 120⟩ : CacheEntry (List MetricSample)))] "k" =
      some ⟨[], 0, 120⟩) ∧
    (map ⟨TemplateRef.literal "m", [], "v", none⟩
        [[("v", CellValue.num 1)], [("v", CellValue.num 1)]] =
      Except.error MapError.duplicateSeries ∧
     (getOrCompute [("k", (⟨[], 0, 120⟩ : CacheEntry (List MetricSample)))] "k" 120 300
        (computeFromMap ⟨TemplateRef.literal "m", [], "v", none⟩
          [[("v", CellValue.num 1)], [("v", CellValue.num 1)]])).cache =
      [("k", ⟨[], 0, 120⟩)] ∧
     cacheLookup
        (getOrCompute [("k", (⟨[], 0, 120⟩ : CacheEntry (List MetricSample)))] "k" 120 300
          (computeFromMap ⟨TemplateRef.literal "m", [], "v", none⟩
            [[("v", CellValue.num 1)], [("v", CellValue.num 1)]])).cache "k" =
      some ⟨[], 0, 120⟩) :=
  ⟨by decide, by decide, by decide, by decide,
   duplicate_detection ⟨TemplateRef.literal "m", [], "v", none⟩
     [[("v", CellValue.num 1)], [("v", CellValue.num 1)]] 0 1 ⟨"m", [], 1⟩ ⟨"m", [], 1⟩
     [("k", ⟨[], 0, 120⟩)] "k" 120 300 ⟨[], 0, 120⟩
     (by decide) (by decide) (by decide) (by decide) (by decide)⟩

/-! ## Theorems: cache freshness and stale-serve -/

/-- C3: for every cache entry created at time t0 with time-to-live T, a
lookup at any time t < t0+T returns the entry unchanged without
recomputation, and a lookup at any time t >= t0+T triggers recomputation. -/
theorem cache_freshness_bound {α : Type} (c : Cache α) (k : String)
    (ttl now : Nat) (computeFn : Except String α) (e : CacheEntry α)
    (hl : cacheLookup c k = some e) :
    (now < e.createdAt + e.ttl →
      getOrCompute c k ttl now computeFn = ⟨Except.ok e.value, c, false⟩) ∧
    (e.createdAt + e.ttl ≤ now →
      (getOrCompute c k ttl now computeFn).computed = true) := by
  constructor
  · intro hfresh
    simp [getOrCompute, hl, hfresh]
  · intro hexp
    have hnot : ¬ now < e.createdAt + e.ttl := not_lt.mpr hexp
    cases computeFn with
    | ok v => simp [getOrCompute, hl, hnot]
    | error err => simp [getOrCompute, hl, hnot]

theorem cache_freshness_bound_witness :
    (cacheLookup [("k", (⟨5, 0, 120⟩ : CacheEntry Int))] "k" = some ⟨5, 0, 120⟩) ∧
    ((60 < 0 + 120 →
      getOrCompute [("k", (⟨5, 0, 120⟩ : CacheEntry Int))] "k" 120 60 (Except.ok 7) =
        ⟨Except.ok 5, [("k", ⟨5, 0, 120⟩)], false⟩) ∧
     (0 + 120 ≤ 60 →
      (getOrCompute [("k", (⟨5, 0, 120⟩ : CacheEntry Int))] "k" 120 60 (Except.ok 7)).computed = true)) :=
  ⟨by decide,
   cache_freshness_bound [("k", ⟨5, 0, 120⟩)] "k" 120 60 (Except.ok 7) ⟨5, 0, 120⟩ (by decide)⟩

/-- C2: for every cache key holding a previously stored value V, if a
recomputation attempt fails, the stale entry is not evicted: the cache is
unchanged, so a subsequent lookup before a later successful recomputation
still returns V, while the failure is surfaced to the caller that triggered
the recomputation. -/
theorem stale_serve_on_failure {α : Type} (c : Cache α) (k : String)
    (ttl now : Nat) (err : String) (e : CacheEntry α)
    (hl : cacheLookup c k = some e)
    (hexp : e.createdAt + e.ttl ≤ now) :
    (getOrCompute c k ttl now (Except.error err)).result = Except.error err ∧
    (getOrCompute c k ttl now (Except.error err)).cache = c ∧
    cacheLookup (getOrCompute c k ttl now (Except.error err)).cache k = some e := by
  have hnot : ¬ now < e.createdAt + e.ttl := not_lt.mpr hexp
  refine ⟨?_, ?_, ?_⟩ <;> simp [getOrCompute, hl, hnot]

theorem stale_serve_on_failure_witness :
    (cacheLookup [("k", (⟨5, 0, 120⟩ : CacheEntry Int))] "k" = some ⟨5, 0, 120⟩) ∧
    (0 + 120 ≤ 200) ∧
    ((getOrCompute [("k", (⟨5, 0, 120⟩ : CacheEntry Int))] "k" 120 200 (Except.error "boom")).result = Except.error "boom" ∧
     (getOrCompute [("k", (⟨5, 0, 120⟩ : CacheEntry Int))] "k" 120 200 (Except.error "boom")).cache = [("k", ⟨5, 0, 120⟩)] ∧
     cacheLookup (getOrCompute [("k", (⟨5, 0, 120⟩ : CacheEntry Int))] "k" 120 200 (Except.error "boom")).cache "k" = some ⟨5, 0, 120⟩) :=
  ⟨by decide, by decide,
   stale_serve_on_failure [("k", ⟨5, 0, 120⟩)] "k" 120 200 "boom" ⟨5, 0, 120⟩ (by decide) (by decide)⟩

/-! ## Theorems: single-flight -/

theorem sfInv_init (ρ : Type) (K : Nat) (res : ρ) : SFInv ρ K res (sfInit ρ K) := by
  refine ⟨?_, ?_, ?_, ?_, ?_, ?_⟩
  · intro r h; simp [sfInit] at h
  · intro _; rfl
  · intro _ i h; simp [sfInit] at h
  · intro i j hi _; simp [sfInit] at hi
  · rfl
  · intro i r h; simp [sfInit] at h

theorem update_eq_cases {α β : Type} [DecidableEq α] (f : α → β) (i j : α)
    (v w : β) (h : Function.update f i v j = w) :
    (j = i ∧ v = w) ∨ (j ≠ i ∧ f j = w) := by
  by_cases hji : j = i
  · subst hji
    rw [Function.update_same] at h
    exact Or.inl ⟨rfl, h⟩
  · rw [Function.update_noteq hji] at h
    exact Or.inr ⟨hji, h⟩

theorem sfInv_step (ρ : Type) (K : Nat) (res : ρ) (s s' : SFState ρ K)
    (hinv : SFInv ρ K res s) (hstep : SFStep ρ K res s s') : SFInv ρ K res s' := by
  cases hstep with
  | lead i hp hf hpub =>
      refine ⟨?_, ?_, ?_, ?_, ?_, ?_⟩
      · intro r h
        exact Option.noConfusion (show (none : Option ρ) = some r from h)
      · intro _; rfl
      · intro h
        exact Bool.noConfusion (show true = false from h)
      · intro j k hj hk
        have hj' : Function.update s.phase i CallerPhase.computing j =
            CallerPhase.computing := hj
        have hk' : Function.update s.phase i CallerPhase.computing k =
            CallerPhase.computing := hk
        rcases update_eq_cases _ _ _ _ _ hj' with ⟨hje, _⟩ | ⟨_, hjc⟩
        · rcases update_eq_cases _ _ _ _ _ hk' with ⟨hke, _⟩ | ⟨_, hkc⟩
          · rw [hje, hke]
          · exact absurd hkc (hinv.no_compute hf k)
        · exact absurd hjc (hinv.no_compute hf j)
      · have h0 : s.computeCount = 0 := by
          simpa [hf, hpub] using hinv.count_eq
        show s.computeCount + 1 =
          (if true then 1 else 0) + (if (none : Option ρ).isSome then 1 else 0)
        simp [h0]
      · intro j r hj
        have hj' : Function.update s.phase i CallerPhase.computing j =
            CallerPhase.done r := hj
        rcases update_eq_cases _ _ _ _ _ hj' with ⟨_, hv⟩ | ⟨_, hjd⟩
        · exact absurd hv (by simp)
        · have := (hinv.done_pub j r hjd).1
          rw [hpub] at this
          exact absurd this (by simp)
  | finish i hp =>
      have hif : s.inFlight = true := by
        cases h : s.inFlight with
        | false => exact absurd hp (hinv.no_compute h i)
        | true => rfl
      have hpub : s.published = none := hinv.inflight_pub hif
      have hnodone : ∀ j r, s.phase j ≠ CallerPhase.done r := by
        intro j r hj
        have := (hinv.done_pub j r hj).1
        rw [hpub] at this
        exact absurd this (by simp)
      refine ⟨?_, ?_, ?_, ?_, ?_, ?_⟩
      · intro r h
        exact (Option.some_inj.mp (show (some res : Option ρ) = some r from h)).symm
      · intro h
        exact Bool.noConfusion (show false = true from h)
      · intro _ j hj
        have hj' : Function.update s.phase i (CallerPhase.done res) j =
            CallerPhase.computing := hj
        rcases update_eq_cases _ _ _ _ _ hj' with ⟨_, hv⟩ | ⟨hjne, hjc⟩
        · exact absurd hv (by simp)
        · exact hjne (hinv.unique_compute j i hjc hp)
      · intro j k hj hk
        have hj' : Function.update s.phase i (CallerPhase.done res) j =
            CallerPhase.computing := hj
        rcases update_eq_cases _ _ _ _ _ hj' with ⟨_, hv⟩ | ⟨hjne, hjc⟩
        · exact absurd hv (by simp)
        · exact absurd (hinv.unique_compute j i hjc hp) hjne
      · show s.computeCount =
          (if false then 1 else 0) + (if (some res : Option ρ).isSome then 1 else 0)
        simpa [hif, hpub] using hinv.count_eq
      · intro j r hj
        have hj' : Function.update s.phase i (CallerPhase.done res) j =
            CallerPhase.done r := hj
        rcases update_eq_cases _ _ _ _ _ hj' with ⟨_, hv⟩ | ⟨_, hjd⟩
        · exact ⟨rfl, (CallerPhase.done.inj hv).symm⟩
        · exact absurd hjd (hnodone j r)
  | join i hp hf =>
      refine ⟨?_, ?_, ?_, ?_, ?_, ?_⟩
      · exact hinv.pub_res
      · exact hinv.inflight_pub
      · intro h j hj
        have hj' : Function.update s.phase i CallerPhase.waiting j =
            CallerPhase.computing := hj
        rcases update_eq_cases _ _ _ _ _ hj' with ⟨_, hv⟩ | ⟨_, hjc⟩
        · exact absurd hv (by simp)
        · exact (hinv.no_compute h j) hjc
      · intro j k hj hk
        have hj' : Function.update s.phase i CallerPhase.waiting j =
            CallerPhase.computing := hj
        have hk' : Function.update s.phase i CallerPhase.waiting k =
            CallerPhase.computing := hk
        rcases update_eq_cases _ _ _ _ _ hj' with ⟨_, hv⟩ | ⟨_, hjc⟩
        · exact absurd hv (by simp)
        · rcases update_eq_cases _ _ _ _ _ hk' with ⟨_, hv⟩ | ⟨_, hkc⟩
          · exact absurd hv (by simp)
          · exact hinv.unique_compute j k hjc hkc
      · exact hinv.count_eq
      · intro j r hj
        have hj' : Function.update s.phase i CallerPhase.waiting j =
            CallerPhase.done r := hj
        rcases update_eq_cases _ _ _ _ _ hj' with ⟨_, hv⟩ | ⟨_, hjd⟩
        · exact absurd hv (by simp)
        · exact hinv.done_pub j r hjd
  | hit i r hp hpub =>
      have hres : r = res := hinv.pub_res r hpub
      refine ⟨?_, ?_, ?_, ?_, ?_, ?_⟩
      · exact hinv.pub_res
      · exact hinv.inflight_pub
      · intro h j hj
        have hj' : Function.update s.phase i (CallerPhase.done r) j =
            CallerPhase.computing := hj
        rcases update_eq_cases _ _ _ _ _ hj' with ⟨_, hv⟩ | ⟨_, hjc⟩
        · exact absurd hv (by simp)
        · exact (hinv.no_compute h j) hjc
      · intro j k hj hk
        have hj' : Function.update s.phase i (CallerPhase.done r) j =
            CallerPhase.computing := hj
        have hk' : Function.update s.phase i (CallerPhase.done r) k =
            CallerPhase.computing := hk
        rcases update_eq_cases _ _ _ _ _ hj' with ⟨_, hv⟩ | ⟨_, hjc⟩
        · exact absurd hv (by simp)
        · rcases update_eq_cases _ _ _ _ _ hk' with ⟨_, hv⟩ | ⟨_, hkc⟩
          · exact absurd hv (by simp)
          · exact hinv.unique_compute j k hjc hkc
      · exact hinv.count_eq
      · intro j r' hj
        have hj' : Function.update s.phase i (CallerPhase.done r) j =
            CallerPhase.done r' := hj
        rcases update_eq_cases _ _ _ _ _ hj' with ⟨_, hv⟩ | ⟨_, hjd⟩
        · refine ⟨show s.published = some res by rw [hpub, hres], ?_⟩
          rw [← CallerPhase.done.inj hv]
          exact hres
        · exact hinv.done_pub j r' hjd
  | awake i r hp hpub =>
      have hres : r = res := hinv.pub_res r hpub
      refine ⟨?_, ?_, ?_, ?_, ?_, ?_⟩
      · exact hinv.pub_res
      · exact hinv.inflight_pub
      · intro h j hj
        have hj' : Function.update s.phase i (CallerPhase.done r) j =
            CallerPhase.computing := hj
        rcases update_eq_cases _ _ _ _ _ hj' with ⟨_, hv⟩ | ⟨_, hjc⟩
        · exact absurd hv (by simp)
        · exact (hinv.no_compute h j) hjc
      · intro j k hj hk
        have hj' : Function.update s.phase i (CallerPhase.done r) j =
            CallerPhase.computing := hj
        have hk' : Function.update s.phase i (CallerPhase.done r) k =
            CallerPhase.computing := hk
        rcases update_eq_cases _ _ _ _ _ hj' with ⟨_, hv⟩ | ⟨_, hjc⟩
        · exact absurd hv (by simp)
        · rcases update_eq_cases _ _ _ _ _ hk' with ⟨_, hv⟩ | ⟨_, hkc⟩
          · exact absurd hv (by simp)
          · exact hinv.unique_compute j k hjc hkc
      · exact hinv.count_eq
      · intro j r' hj
        have hj' : Function.update s.phase i (CallerPhase.done r) j =
            CallerPhase.done r' := hj
        rcases update_eq_cases _ _ _ _ _ hj' with ⟨_, hv⟩ | ⟨_, hjd⟩
        · refine ⟨show s.published = some res by rw [hpub, hres], ?_⟩
          rw [← CallerPhase.done.inj hv]
          exact hres
        · exact hinv.done_pub j r' hjd

theorem sfInv_reachable (ρ : Type) (K : Nat) (res : ρ) (s : SFState ρ K)
    (h : SFReachable ρ K res s) : SFInv ρ K res s := by
  induction h with
  | init => exact sfInv_init ρ K res
  | step s s' _ hs ih => exact sfInv_step ρ K res s s' ih hs

/-- C1: in the single-flight protocol for one expired key, at most one
compute execution is in flight in any reachable state, and once all K
callers have finished, the compute function has been invoked exactly once
and every caller observed the same result `res` (a value or an error). -/
theorem single_flight (ρ : Type) (K : Nat) (res : ρ) (s : SFState ρ K)
    (hreach : SFReachable ρ K res s) :
    (∀ i j, s.phase i = CallerPhase.computing →
      s.phase j = CallerPhase.computing → i = j) ∧
    ((∀ i, ∃ r, s.phase i = CallerPhase.done r) → 0 < K →
      s.computeCount = 1 ∧ ∀ i, s.phase i = CallerPhase.done res) := by
  have hinv := sfInv_reachable ρ K res s hreach
  refine ⟨hinv.unique_compute, ?_⟩
  intro hall hK
  obtain ⟨r0, hr0⟩ := hall ⟨0, hK⟩
  have hpub : s.published = some res := (hinv.done_pub _ r0 hr0).1
  have hif : s.inFlight = false := by
    cases h : s.inFlight with
    | true => rw [hinv.inflight_pub h] at hpub; exact absurd hpub (by simp)
    | false => rfl
  constructor
  · rw [hinv.count_eq, hif, hpub]; rfl
  · intro i
    obtain ⟨r, hr⟩ := hall i
    have := (hinv.done_pub i r hr).2
    rw [hr, this]

theorem single_flight_witness :
    SFReachable Nat 1 7
      (⟨Function.update (Function.update (fun _ => CallerPhase.start) 0 CallerPhase.computing)
          0 (CallerPhase.done 7), false, some 7, 1⟩ : SFState Nat 1) ∧
    (∀ i : Fin 1,
      ∃ r, (⟨Function.update (Function.update (fun _ => CallerPhase.start) 0 CallerPhase.computing)
          0 (CallerPhase.done 7), false, some 7, 1⟩ : SFState Nat 1).phase i = CallerPhase.done r) ∧
    (0 < 1) ∧
    ((⟨Function.update (Function.update (fun _ => CallerPhase.start) 0 CallerPhase.computing)
        0 (CallerPhase.done 7), false, some 7, 1⟩ : SFState Nat 1).computeCount = 1 ∧
     ∀ i : Fin 1,
      (⟨Function.update (Function.update (fun _ => CallerPhase.start) 0 CallerPhase.computing)
          0 (CallerPhase.done 7), false, some 7, 1⟩ : SFState Nat 1).phase i =
        CallerPhase.done 7) := by
  have h1 : SFStep Nat 1 7 (sfInit Nat 1)
      (⟨Function.update (fun _ => CallerPhase.start) 0 CallerPhase.computing,
        true, none, 1⟩ : SFState Nat 1) :=
    SFStep.lead (sfInit Nat 1) 0 rfl rfl rfl
  have h2 : SFStep Nat 1 7
      (⟨Function.update (fun _ => CallerPhase.start) 0 CallerPhase.computing,
        true, none, 1⟩ : SFState Nat 1)
      (⟨Function.update (Function.update (fun _ => CallerPhase.start) 0 CallerPhase.computing)
          0 (CallerPhase.done 7), false, some 7, 1⟩ : SFState Nat 1) :=
    SFStep.finish _ 0 (by simp)
  have hreach : SFReachable Nat 1 7
      (⟨Function.update (Function.update (fun _ => CallerPhase.start) 0 CallerPhase.computing)
          0 (CallerPhase.done 7), false, some 7, 1⟩ : SFState Nat 1) :=
    SFReachable.step _ _ (SFReachable.step _ _ SFReachable.init h1) h2
  have hall : ∀ i : Fin 1,
      ∃ r, (⟨Function.update (Function.update (fun _ => CallerPhase.start) 0 CallerPhase.computing)
          0 (CallerPhase.done 7), false, some 7, 1⟩ : SFState Nat 1).phase i =
        CallerPhase.done r := by
    intro i
    refine ⟨7, ?_⟩
    have hi : i = 0 := Subsingleton.elim i 0
    rw [hi]
    simp
  exact ⟨hreach, hall, Nat.one_pos,
    (single_flight Nat 1 7 _ hreach).2 hall Nat.one_pos⟩

/-! ## Theorems: probe orchestrator -/

/-- C4: a probe with an invalid restriction (unknown query name or
subscription id) is a client error; a valid probe succeeds whenever at
least one selected query succeeded, with failed queries' samples omitted
from the payload and their failures recorded in the per-query status; it
is a service-level failure only when every selected query failed. -/
theorem probe_partial_failure (declared knownSubs selQ selS : List String)
    (runQuery : String → Except String (List MetricSample)) :
    (validSelection declared knownSubs selQ selS = false →
      probe declared knownSubs selQ selS runQuery = ProbeResponse.clientError) ∧
    (validSelection declared knownSubs selQ selS = true →
      ((∃ q ∈ effectiveSelection declared selQ, queryFails runQuery q = false) →
        probe declared knownSubs selQ selS runQuery =
          ProbeResponse.success
            (probePayload runQuery (effectiveSelection declared selQ))
            (perQueryStatus runQuery (effectiveSelection declared selQ))) ∧
      ((∀ q ∈ effectiveSelection declared selQ, queryFails runQuery q = true) →
        probe declared knownSubs selQ selS runQuery =
          ProbeResponse.serviceFailure
            (perQueryStatus runQuery (effectiveSelection declared selQ)))) := by
  refine ⟨?_, ?_⟩
  · intro h
    simp [probe, h]
  · intro hvalid
    refine ⟨?_, ?_⟩
    · rintro ⟨q, hq, hok⟩
      have hall : (effectiveSelection declared selQ).all (queryFails runQuery) = false := by
        cases h : (effectiveSelection declared selQ).all (queryFails runQuery) with
        | true => exact absurd (List.all_eq_true.mp h q hq) (by simp [hok])
        | false => rfl
      simp [probe, hvalid, hall]
    · intro hall
      have h : (effectiveSelection declared selQ).all (queryFails runQuery) = true :=
        List.all_eq_true.mpr hall
      simp [probe, hvalid, h]

theorem probe_partial_failure_witness :
    (validSelection ["a", "b"] ["s"] [] [] = true) ∧
    (∃ q ∈ effectiveSelection ["a", "b"] [],
      queryFails (fun q => if q = "a" then Except.ok [⟨"m", [], 1⟩] else Except.error "fail") q = false) ∧
    probe ["a", "b"] ["s"] [] []
        (fun q => if q = "a" then Except.ok [⟨"m", [], 1⟩] else Except.error "fail") =
      ProbeResponse.success
        (probePayload (fun q => if q = "a" then Except.ok [⟨"m", [], 1⟩] else Except.error "fail")
          (effectiveSelection ["a", "b"] []))
        (perQueryStatus (fun q => if q = "a" then Except.ok [⟨"m", [], 1⟩] else Except.error "fail")
          (effectiveSelection ["a", "b"] [])) :=
  ⟨by decide, by decide,
   ((probe_partial_failure ["a", "b"] ["s"] [] []
      (fun q => if q = "a" then Except.ok [⟨"m", [], 1⟩] else Except.error "fail")).2
     (by decide)).1 (by decide)⟩

/-! ## Theorems: configuration validation and main ordering -/

/-- C8: a malformed configuration (duplicate query name, or a template
referencing no resolvable name) fails validation at load time, the process
panics and never reaches the HTTP-server stage; only a configuration
passing validation reaches the HTTP-server stage. -/
theorem config_validation_gates_serving (env : ProcEnv) :
    (∀ e, validateConfig env.queries = Except.error e →
      (mainTrace env).2 = MainOutcome.panicked e ∧
      ProcEvent.httpServe ∉ (mainTrace env).1) ∧
    (ProcEvent.httpServe ∈ (mainTrace env).1 →
      validateConfig env.queries = Except.ok ()) := by
  refine ⟨?_, ?_⟩
  · intro e he
    refine ⟨?_, ?_⟩
    · simp [mainTrace, he]
    · simp [mainTrace, he]
  · intro hmem
    cases hv : validateConfig env.queries with
    | error e => simp [mainTrace, hv] at hmem
    | ok u => rfl

/-- C10: in every run of `main`, the metric cache is constructed with the
fixed constants 120 seconds default expiration and 60 seconds cleanup
interval, as the third lifecycle event, strictly before the configuration
is read (the fourth event); no other cache construction and no other
configuration read occurs, and the constants do not depend on the
environment, so the process-wide default cache TTL is a compile-time
constant rather than a configured value. -/
theorem cache_constructed_before_config (env : ProcEnv) :
    (mainTrace env).1[2]? = some (ProcEvent.cacheInit 120 60) ∧
    (mainTrace env).1[3]? = some ProcEvent.configRead ∧
    (∀ i d cl, (mainTrace env).1[i]? = some (ProcEvent.cacheInit d cl) →
      i = 2 ∧ d = 120 ∧ cl = 60) ∧
    (∀ i, (mainTrace env).1[i]? = some ProcEvent.configRead → i = 3) := by
  have htr : (mainTrace env).1 =
      [ProcEvent.argsParsed, ProcEvent.globalMetricsInit,
       ProcEvent.cacheInit 120 60, ProcEvent.configRead] ∨
      (mainTrace env).1 =
      [ProcEvent.argsParsed, ProcEvent.globalMetricsInit,
       ProcEvent.cacheInit 120 60, ProcEvent.configRead, ProcEvent.azureInit] ∨
      (mainTrace env).1 =
      [ProcEvent.argsParsed, ProcEvent.globalMetricsInit,
       ProcEvent.cacheInit 120 60, ProcEvent.configRead, ProcEvent.azureInit,
       ProcEvent.httpServe] := by
    unfold mainTrace
    cases validateConfig env.queries with
    | error e => exact Or.inl rfl
    | ok u =>
        cases initAzureConnection env.optsSubscription env.azure with
        | error e => exact Or.inr (Or.inl rfl)
        | ok subs => exact Or.inr (Or.inr rfl)
  rcases htr with h | h | h <;>
    refine ⟨by rw [h]; rfl, by rw [h]; rfl, ?_, ?_⟩ <;>
    first
    | (intro i d cl hi
       rw [h] at hi
       rcases i with _ | _ | _ | _ | _ | _ | i <;> simp_all)
    | (intro i hi
       rw [h] at hi
       rcases i with _ | _ | _ | _ | _ | _ | i <;> simp_all)

theorem config_validation_gates_serving_witness :
    (validateConfig
        [⟨"a", "q", ⟨TemplateRef.literal "m", [], "v", none⟩, ["v"]⟩,
         ⟨"a", "q", ⟨TemplateRef.literal "m", [], "v", none⟩, ["v"]⟩] =
      Except.error "ConfigError: duplicate query name") ∧
    ((mainTrace
        ⟨[⟨"a", "q", ⟨TemplateRef.literal "m", [], "v", none⟩, ["v"]⟩,
          ⟨"a", "q", ⟨TemplateRef.literal "m", [], "v", none⟩, ["v"]⟩], [],
         ⟨Except.ok (), Except.ok (), Except.ok [⟨"s1"⟩],
          fun _ => Except.ok ⟨"s1"⟩⟩⟩).2 =
        MainOutcome.panicked "ConfigError: duplicate query name" ∧
      ProcEvent.httpServe ∉
        (mainTrace
          ⟨[⟨"a", "q", ⟨TemplateRef.literal "m", [], "v", none⟩, ["v"]⟩,
            ⟨"a", "q", ⟨TemplateRef.literal "m", [], "v", none⟩, ["v"]⟩], [],
           ⟨Except.ok (), Except.ok (), Except.ok [⟨"s1"⟩],
            fun _ => Except.ok ⟨"s1"⟩⟩⟩).1) ∧
    (ProcEvent.httpServe ∈
      (mainTrace
        ⟨[⟨"a", "q", ⟨TemplateRef.literal "m", [], "v", none⟩, ["v"]⟩], ["s1"],
         ⟨Except.ok (), Except.ok (), Except.ok [⟨"s1"⟩],
          fun _ => Except.ok ⟨"s1"⟩⟩⟩).1) ∧
    (validateConfig
        [⟨"a", "q", ⟨TemplateRef.literal "m", [], "v", none⟩, ["v"]⟩] =
      Except.ok ()) :=
  ⟨rfl,
   (config_validation_gates_serving
     ⟨[⟨"a", "q", ⟨TemplateRef.literal "m", [], "v", none⟩, ["v"]⟩,
       ⟨"a", "q", ⟨TemplateRef.literal "m", [], "v", none⟩, ["v"]⟩], [],
      ⟨Except.ok (), Except.ok (), Except.ok [⟨"s1"⟩],
       fun _ => Except.ok ⟨"s1"⟩⟩⟩).1 _ rfl,
   by decide,
   (config_validation_gates_serving
     ⟨[⟨"a", "q", ⟨TemplateRef.literal "m", [], "v", none⟩, ["v"]⟩], ["s1"],
      ⟨Except.ok (), Except.ok (), Except.ok [⟨"s1"⟩],
       fun _ => Except.ok ⟨"s1"⟩⟩⟩).2 (by decide)⟩

theorem cache_constructed_before_config_witness :
    ((mainTrace ⟨[], [], ⟨Except.ok (), Except.ok (), Except.ok [⟨"s1"⟩],
        fun _ => Except.ok ⟨"s1"⟩⟩⟩).1[2]? =
      some (ProcEvent.cacheInit 120 60)) ∧
    ((mainTrace ⟨[], [], ⟨Except.ok (), Except.ok (), Except.ok [⟨"s1"⟩],
        fun _ => Except.ok ⟨"s1"⟩⟩⟩).1[3]? = some ProcEvent.configRead) ∧
    ((2 : Nat) = 2 ∧ (120 : Nat) = 120 ∧ (60 : Nat) = 60) :=
  ⟨(cache_constructed_before_config
      ⟨[], [], ⟨Except.ok (), Except.ok (), Except.ok [⟨"s1"⟩],
        fun _ => Except.ok ⟨"s1"⟩⟩⟩).1,
   (cache_constructed_before_config
      ⟨[], [], ⟨Except.ok (), Except.ok (), Except.ok [⟨"s1"⟩],
        fun _ => Except.ok ⟨"s1"⟩⟩⟩).2.1,
   (cache_constructed_before_config
      ⟨[], [], ⟨Except.ok (), Except.ok (), Except.ok [⟨"s1"⟩],
        fun _ => Except.ok ⟨"s1"⟩⟩⟩).2.2.1 2 120 60
     (cache_constructed_before_config
      ⟨[], [], ⟨Except.ok (), Except.ok (), Except.ok [⟨"s1"⟩],
        fun _ => Except.ok ⟨"s1"⟩⟩⟩).1⟩

/-! ## Theorems: subscription scope -/

theorem getSubscriptions_length (env : AzureEnv) (ids : List String) :
    ∀ (acc out : List Subscription),
      getSubscriptions env acc ids = Except.ok out →
      out.length = acc.length + ids.length := by
  induction ids with
  | nil =>
      intro acc out h
      simp only [getSubscriptions] at h
      injection h with h
      subst h
      simp
  | cons subId rest ih =>
      intro acc out h
      simp only [getSubscriptions] at h
      cases hg : env.getResult subId with
      | error e => rw [hg] at h; simp at h
      | ok r =>
          rw [hg] at h
          have hlen := ih (acc ++ [r]) out h
          simp only [List.length_append, List.length_cons, List.length_nil] at hlen
          simp only [List.length_cons]
          omega

theorem getSubscriptions_error (env : AzureEnv) (ids : List String) :
    ∀ (acc : List Subscription),
      (∃ subId ∈ ids, ∃ e, env.getResult subId = Except.error e) →
      ∃ e, getSubscriptions env acc ids = Except.error e := by
  induction ids with
  | nil =>
      rintro acc ⟨subId, hmem, _⟩
      simp at hmem
  | cons head rest ih =>
      rintro acc ⟨subId, hmem, e, he⟩
      cases hg : env.getResult head with
      | error e' => exact ⟨e', by simp [getSubscriptions, hg]⟩
      | ok r =>
          rcases List.mem_cons.mp hmem with heq | hmem'
          · rw [heq, hg] at he
            simp at he
          · obtain ⟨e', h'⟩ := ih (acc ++ [r]) ⟨subId, hmem', e, he⟩
            exact ⟨e', by simp [getSubscriptions, hg, h']⟩

/-- C9: every query executes against a non-empty subscription scope: a
successful `initAzureConnection` always yields a non-empty subscription
list; auto-discovery resolving zero subscriptions is fatal, as is a
failure to resolve any explicitly configured subscription id; and a
process that reaches the serving stage holds a non-empty
`AzureSubscriptions` list. -/
theorem subscriptions_nonempty (env : ProcEnv) :
    (∀ subs, initAzureConnection env.optsSubscription env.azure = Except.ok subs →
      subs ≠ []) ∧
    (env.optsSubscription = [] → env.azure.listResult = Except.ok [] →
      ∃ e, initAzureConnection env.optsSubscription env.azure = Except.error e) ∧
    ((∃ subId ∈ env.optsSubscription, ∃ e, env.azure.getResult subId = Except.error e) →
      ∃ e, initAzureConnection env.optsSubscription env.azure = Except.error e) ∧
    (∀ subs, (mainTrace env).2 = MainOutcome.serving subs → subs ≠ []) := by
  have main1 : ∀ subs,
      initAzureConnection env.optsSubscription env.azure = Except.ok subs →
      subs ≠ [] := by
    intro subs h hnil
    subst hnil
    cases ha : env.azure.authorizerOk with
    | error e => simp [initAzureConnection, ha] at h
    | ok u1 =>
        cases hb : env.azure.environmentOk with
        | error e => simp [initAzureConnection, ha, hb] at h
        | ok u2 =>
            by_cases hlen : env.optsSubscription.length = 0
            · cases hl : env.azure.listResult with
              | error e => simp [initAzureConnection, ha, hb, hlen, hl] at h
              | ok subs' =>
                  by_cases hz : subs'.length = 0
                  · simp [initAzureConnection, ha, hb, hlen, hl, hz] at h
                  · simp [initAzureConnection, ha, hb, hlen, hl, hz] at h
                    exact hz (by simp [h])
            · simp [initAzureConnection, ha, hb, hlen] at h
              have hlen2 := getSubscriptions_length env.azure env.optsSubscription [] [] h
              simp at hlen2
              exact hlen (by omega)
  have main2 : env.optsSubscription = [] → env.azure.listResult = Except.ok [] →
      ∃ e, initAzureConnection env.optsSubscription env.azure = Except.error e := by
    intro hopts hlist
    cases ha : env.azure.authorizerOk with
    | error e => exact ⟨e, by simp [initAzureConnection, ha]⟩
    | ok u1 =>
        cases hb : env.azure.environmentOk with
        | error e => exact ⟨e, by simp [initAzureConnection, ha, hb]⟩
        | ok u2 =>
            exact ⟨"no Azure Subscriptions found via auto detection, does this ServicePrincipal have read permissions to the subscriptions?",
              by simp [initAzureConnection, ha, hb, hopts, hlist]⟩
  have main3 : (∃ subId ∈ env.optsSubscription, ∃ e,
        env.azure.getResult subId = Except.error e) →
      ∃ e, initAzureConnection env.optsSubscription env.azure = Except.error e := by
    intro hex
    cases ha : env.azure.authorizerOk with
    | error e => exact ⟨e, by simp [initAzureConnection, ha]⟩
    | ok u1 =>
        cases hb : env.azure.environmentOk with
        | error e => exact ⟨e, by simp [initAzureConnection, ha, hb]⟩
        | ok u2 =>
            have hne : env.optsSubscription ≠ [] := by
              rcases hex with ⟨subId, hmem, _⟩
              intro h0
              rw [h0] at hmem
              simp at hmem
            have hlen : ¬ env.optsSubscription.length = 0 := by
              intro h0
              exact hne (List.length_eq_zero.mp h0)
            obtain ⟨e, he⟩ := getSubscriptions_error env.azure env.optsSubscription [] hex
            exact ⟨e, by simp [initAzureConnection, ha, hb, hlen, he]⟩
  have main4 : ∀ subs, (mainTrace env).2 = MainOutcome.serving subs → subs ≠ [] := by
    intro subs h
    cases hv : validateConfig env.queries with
    | error e => simp [mainTrace, hv] at h
    | ok u =>
        cases hi : initAzureConnection env.optsSubscription env.azure with
        | error e => simp [mainTrace, hv, hi] at h
        | ok subs' =>
            simp [mainTrace, hv, hi] at h
            have := main1 subs' hi
            rwa [h] at this
  exact ⟨main1, main2, main3, main4⟩

theorem subscriptions_nonempty_witness :
    (initAzureConnection ["s1"]
        ⟨Except.ok (), Except.ok (), Except.ok [], fun _ => Except.ok ⟨"s1"⟩⟩ =
      Except.ok [⟨"s1"⟩]) ∧
    ([(⟨"s1"⟩ : Subscription)] ≠ []) ∧
    (∃ e, initAzureConnection []
        ⟨Except.ok (), Except.ok (), Except.ok [], fun _ => Except.error "x"⟩ =
      Except.error e) ∧
    (∃ e, initAzureConnection ["bad"]
        ⟨Except.ok (), Except.ok (), Except.ok [], fun _ => Except.error "boom"⟩ =
      Except.error e) :=
  ⟨rfl,
   (subscriptions_nonempty
     ⟨[], ["s1"], ⟨Except.ok (), Except.ok (), Except.ok [],
      fun _ => Except.ok ⟨"s1"⟩⟩⟩).1 [⟨"s1"⟩] rfl,
   (subscriptions_nonempty
     ⟨[], [], ⟨Except.ok (), Except.ok (), Except.ok [],
      fun _ => Except.error "x"⟩⟩).2.1 rfl rfl,
   (subscriptions_nonempty
     ⟨[], ["bad"], ⟨Except.ok (), Except.ok (), Except.ok [],
      fun _ => Except.error "boom"⟩⟩).2.2.1 ⟨"bad", by decide, "boom", rfl⟩⟩

end ResourceGraphExporter
